import Mathlib

/-!
Shallow embedding of the terrain-generation code of src/orbits/driver.js:
the height-field allocation and fault loop, the normalization pass, the
normal-estimation pass (driver lines 353-429) and the mesh builder
createTerrain (driver lines 318-338), together with theorems that check the
specification claims against this code.
-/

namespace TerrainJS

/-- JS number with finiteness tracked: some q is the finite value q, none is
a non-finite value (NaN or an infinity). The embedded code can only produce
a non-finite number through the division in the normalization pass. -/
abbrev JsNum := Option ℚ

/-- Addition of JS numbers; a non-finite operand gives a non-finite result
(faithful for every case the embedded code reaches). -/
def jsAdd : JsNum → JsNum → JsNum
  | some a, some b => some (a + b)
  | _, _ => none

/-- Subtraction of JS numbers; a non-finite operand gives a non-finite
result (faithful for every case the embedded code reaches). -/
def jsSub : JsNum → JsNum → JsNum
  | some a, some b => some (a - b)
  | _, _ => none

/-- Multiplication of JS numbers, same convention as jsAdd. -/
def jsMul : JsNum → JsNum → JsNum
  | some a, some b => some (a * b)
  | _, _ => none

/-- Division of JS numbers: division by zero yields a non-finite value
(NaN for 0/0, an infinity otherwise), both encoded as none. -/
def jsDiv : JsNum → JsNum → JsNum
  | some a, some b => if b = 0 then none else some (a / b)
  | _, _ => none

/-- Math.max of two JS numbers; NaN propagates as none (the embedded code
never reaches Math.max with an infinity). -/
def jsMax2 : JsNum → JsNum → JsNum
  | some a, some b => some (max a b)
  | _, _ => none

/-- Math.min of two JS numbers, same convention as jsMax2. -/
def jsMin2 : JsNum → JsNum → JsNum
  | some a, some b => some (min a b)
  | _, _ => none

/-- Math.max.apply over a JS array: none for the empty array (JS gives
minus infinity there; the embedded code only applies this to nonempty
rows). -/
def jsMaxList : List JsNum → JsNum
  | [] => none
  | h :: t => t.foldl jsMax2 h

/-- Math.min.apply over a JS array, same convention as jsMaxList. -/
def jsMinList : List JsNum → JsNum
  | [] => none
  | h :: t => t.foldl jsMin2 h

/-- ToInt32 coercion applied to Int32Array elements: truncate toward zero,
then wrap into the signed 32-bit range. -/
def toInt32 (q : ℚ) : ℤ :=
  (((if 0 ≤ q then ⌊q⌋ else ⌈q⌉) + 2 ^ 31) % 2 ^ 32) - 2 ^ 31

/-- A JS array-of-arrays value with reference semantics: heap lists the
distinct row objects that exist, and outer gives, for each outer index, the
heap address of the row object that slot refers to. -/
structure RefGrid where
  heap : List (List JsNum)
  outer : List ℕ
deriving DecidableEq

/-- Driver line 357 (and line 358 for the normals grid):
new Array(gridsize).fill(new Array(gridsize).fill(0)). The inner expression
is evaluated once, so a single row object is allocated (heap address 0) and
every slot of the outer array holds a reference to that same row. -/
def mkGrid (n : ℕ) : RefGrid :=
  { heap := [List.replicate n (some 0)], outer := List.replicate n 0 }

/-- Reading grid[i][j]: follow the address stored at outer slot i, then
index into that row object. Out-of-range reads give undefined, collapsed to
none here; the embedded code only performs in-range reads. -/
def RefGrid.read (g : RefGrid) (i j : ℕ) : JsNum :=
  (g.heap.getD (g.outer.getD i 0) []).getD j none

/-- Writing grid[i][j] = v: mutate the row object that outer slot i refers
to. Every outer slot holding the same address observes the write. -/
def RefGrid.write (g : RefGrid) (i j : ℕ) (v : JsNum) : RefGrid :=
  { heap := g.heap.set (g.outer.getD i 0)
      ((g.heap.getD (g.outer.getD i 0) []).set j v)
    outer := g.outer }

/-- One fault: the random point p = (x, y) with x and y drawn from
[0, gridsize), and the direction (c, s) = (cos theta, sin theta). -/
structure Fault where
  x : ℚ
  y : ℚ
  c : ℚ
  s : ℚ
deriving DecidableEq

/-- Driver lines 362-371. For every vertex the source computes
vertex = new Int32Array(x, y) and val = dot(sub(vertex, p), normal), with
p = new Float32Array(x, y) and
normal = new Float32Array(Math.cos(theta), Math.sin(theta), 0).
The typed arrays are modelled as the vectors their arguments spell out,
Int32Array elements coerced through toInt32. (Under strict JS semantics
these constructor calls read their first argument as an array length and
throw RangeError for fractional values, so the fault loop would abort; the
model reads them charitably as the evidently intended vectors.)
Modelled from the spec: the helpers dot and sub are not under src, so they
are taken from spec 4.1 as the 2-D dot product and componentwise
subtraction. Note that the source builds vertex from the fault point
(x, y), not from the loop indices (i, j), so val does not depend on the
vertex being visited at all. -/
def Fault.val (f : Fault) : ℚ :=
  ((toInt32 f.x : ℚ) - f.x) * f.c + ((toInt32 f.y : ℚ) - f.y) * f.s

/-- Driver lines 373-378: the per-vertex elevation update of one fault
(grid[i][j] -= 0.01 when val < 0, grid[i][j] += 0.01 when val > 0,
no write when val = 0). -/
def faultStep (f : Fault) (g : RefGrid) (i j : ℕ) : RefGrid :=
  if f.val < 0 then g.write i j (jsSub (g.read i j) (some (1 / 100)))
  else if 0 < f.val then g.write i j (jsAdd (g.read i j) (some (1 / 100)))
  else g

/-- Driver lines 367-380: the double loop of one fault over all vertices. -/
def applyFault (n : ℕ) (g : RefGrid) (f : Fault) : RefGrid :=
  (List.range n).foldl
    (fun gi i => (List.range n).foldl (fun gj j => faultStep f gj i j) gi) g

/-- Driver lines 361-381: apply the whole random fault list in order. -/
def runFaults (n : ℕ) (g : RefGrid) (fs : List Fault) : RefGrid :=
  fs.foldl (fun gacc f => applyFault n gacc f) g

/-- Driver line 384: maxRow = grid.map(row maps to Math.max over row). -/
def maxRowOf (g : RefGrid) : List JsNum :=
  g.outer.map (fun a => jsMaxList (g.heap.getD a []))

/-- Driver line 387: minRow, computed by the source but never used
afterwards. -/
def minRowOf (g : RefGrid) : List JsNum :=
  g.outer.map (fun a => jsMinList (g.heap.getD a []))

/-- Driver line 385: max = Math.max.apply(null, maxRow). -/
def gridMaxOf (g : RefGrid) : JsNum := jsMaxList (maxRowOf g)

/-- Driver line 388: min = Math.min.apply(null, maxRow). The source takes
the minimum over maxRow, not over minRow. -/
def gridMinOf (g : RefGrid) : JsNum := jsMinList (maxRowOf g)

/-- Driver lines 390-394: in-place normalization
grid[i][j] = (grid[i][j] - ((max + min) / 2)) / (max - min), with max and
min computed once, before the loop, from the pre-loop grid. There is no
guard for max = min; the division then yields a non-finite value. Because
the loop rewrites the shared row in place, later iterations re-read cells
that were already normalized. -/
def normalizeGrid (n : ℕ) (g : RefGrid) : RefGrid :=
  (List.range n).foldl
    (fun gi i => (List.range n).foldl
      (fun gj j =>
        gj.write i j
          (jsDiv
            (jsSub (gj.read i j)
              (jsDiv (jsAdd (gridMaxOf g) (gridMinOf g)) (some 2)))
            (jsSub (gridMaxOf g) (gridMinOf g))))
      gi) g

/-- JS runtime error kinds reached by the embedded code. -/
inductive JsErr where
  | typeError
  | rangeError
  | referenceError
deriving DecidableEq

/-- Driver lines 404-424 read gridsize[i][j]: gridsize is the Number
parameter of the handler, so gridsize[i] evaluates to undefined and
indexing undefined throws a TypeError. -/
def gridsizeIndex (_gridsize _i _j : ℕ) : Except JsErr JsNum :=
  Except.error JsErr.typeError

/-- Driver lines 399-425, one vertex of the normal pass: the exact branch
structure of the source, every branch reading the scalar gridsize as if it
were the elevation grid. Note that the interior branch reads index i+1 for
both n and s, and that the value assigned is the scalar
(n - s) * (w - e), not a vector. Every read throws TypeError. -/
def normalScalarAt (gridsize i j : ℕ) : Except JsErr JsNum := do
  let ns ←
    if i = 0 then do
      let a ← gridsizeIndex gridsize i j
      let b ← gridsizeIndex gridsize (i + 1) j
      pure (a, b)
    else if i = gridsize - 1 then do
      let a ← gridsizeIndex gridsize (i - 1) j
      let b ← gridsizeIndex gridsize i j
      pure (a, b)
    else do
      let a ← gridsizeIndex gridsize (i + 1) j
      let b ← gridsizeIndex gridsize (i + 1) j
      pure (a, b)
  let we ←
    if j = 0 then do
      let w ← gridsizeIndex gridsize i j
      let e ← gridsizeIndex gridsize i (j + 1)
      pure (w, e)
    else if j = gridsize - 1 then do
      let e ← gridsizeIndex gridsize i j
      let w ← gridsizeIndex gridsize i (j - 1)
      pure (w, e)
    else do
      let w ← gridsizeIndex gridsize i (j - 1)
      let e ← gridsizeIndex gridsize i (j + 1)
      pure (w, e)
  pure (jsMul (jsSub ns.1 ns.2) (jsSub we.1 we.2))

/-- Driver lines 397-427: fill grid_normals from the mis-indexed neighbor
reads. The very first vertex already throws, so for every positive gridsize
the pass never completes and no normal is stored. -/
def computeNormals (gridsize : ℕ) (gn : RefGrid) : Except JsErr RefGrid :=
  (List.range gridsize).foldlM
    (fun gi i => (List.range gridsize).foldlM
      (fun gj j => do
        let v ← normalScalarAt gridsize i j
        pure (gj.write i j v))
      gi) gn

/-- Mesh object built by createTerrain: the flat triangle index list and
the two attribute streams (position data, color data). -/
structure Terrain where
  triangles : List ℤ
  positions : List ℚ
  colors : List ℚ
deriving DecidableEq

/-- Loop index list of (let i = 0; i < b; i += 1). -/
def intRange (b : ℤ) : List ℤ := (List.range b.toNat).map Int.ofNat

/-- Driver lines 318-338, exactly as written: each iteration first pushes
i*3, i*3+1, i*3+2 onto terrain.triangles (a mutation of the global
terrain object) and then evaluates g.attributes, where g is not declared
anywhere, so the iteration throws ReferenceError. The call can therefore
only return normally when the loop body never runs, that is when
(gridsize - 1) * (gridsize - 1) * 2 is not positive. -/
def createTerrain (gridsize faults : ℤ) : Except JsErr Terrain :=
  (intRange ((gridsize - 1) * (gridsize - 1) * 2)).foldlM
    (fun _t _i => (Except.error JsErr.referenceError : Except JsErr Terrain))
    { triangles := [], positions := [], colors := [] }

/-- The createTerrain loop with its single undeclared-identifier slip
repaired (g read as terrain, the evident intent given the object literal at
driver line 319); used to assess the mesh-content claims that the
ReferenceError otherwise moots. Per iteration the loop pushes the index
entries i*3, i*3+1, i*3+2, the position data i, i+1, i+gridsize and the
color 0.8, 0.6, 0.4, all of which depend only on gridsize and never on the
generated elevations or normals. -/
def createTerrainRepaired (gridsize faults : ℤ) : Terrain :=
  (intRange ((gridsize - 1) * (gridsize - 1) * 2)).foldl
    (fun (t : Terrain) (i : ℤ) =>
      { triangles := t.triangles ++ [i * 3, i * 3 + 1, i * 3 + 2]
        positions := t.positions ++ [(i : ℚ), (i : ℚ) + 1, (i : ℚ) + (gridsize : ℚ)]
        colors := t.colors ++ [4 / 5, 3 / 5, 2 / 5] })
    { triangles := [], positions := [], colors := [] }

/-- Driver lines 354-355: Number(input.value) || d. The Number result is
modelled as none when it is NaN (non-numeric input); x || d picks the
default d exactly when x is NaN or 0, and keeps every other numeric value,
in range or not. -/
def numberOr (x : Option ℚ) (d : ℚ) : ℚ :=
  match x with
  | none => d
  | some v => if v = 0 then d else v

/-! Helper lemmas shared by the claim theorems. -/

/-- Every slot of a zero-filled replicate list reads as zero, in range or
not (the default is also zero). -/
theorem getD_replicate_zero (n i : ℕ) : (List.replicate n (0 : ℕ)).getD i 0 = 0 := by
  induction n generalizing i with
  | zero => cases i <;> rfl
  | succ m ih =>
    cases i with
    | zero => rfl
    | succ k => simp only [List.replicate_succ, List.getD_cons_succ, ih k]

/-- When every outer slot holds heap address 0 (as after the fill-based
allocation), reading a cell does not depend on the row index. -/
theorem read_eq_of_outer_replicate {g : RefGrid} {n : ℕ}
    (h : g.outer = List.replicate n 0) (i iw j : ℕ) :
    g.read i j = g.read iw j := by
  unfold RefGrid.read
  rw [h, getD_replicate_zero, getD_replicate_zero]

/-- Writing a cell never changes the outer reference array. -/
theorem write_outer (g : RefGrid) (i j : ℕ) (v : JsNum) :
    (g.write i j v).outer = g.outer := rfl

/-- The per-vertex fault update never changes the outer reference array. -/
theorem faultStep_outer (f : Fault) (g : RefGrid) (i j : ℕ) :
    (faultStep f g i j).outer = g.outer := by
  unfold faultStep
  split
  · rfl
  · split <;> rfl

/-- A fold whose step preserves the outer reference array preserves it. -/
theorem foldl_outer {β : Type} (step : RefGrid → β → RefGrid)
    (hs : ∀ g b, (step g b).outer = g.outer) :
    ∀ (l : List β) (g : RefGrid), (l.foldl step g).outer = g.outer
  | [], _ => rfl
  | b :: t, g => by
    rw [List.foldl_cons, foldl_outer step hs t (step g b), hs]

/-- One whole fault pass preserves the outer reference array. -/
theorem applyFault_outer (n : ℕ) (g : RefGrid) (f : Fault) :
    (applyFault n g f).outer = g.outer := by
  unfold applyFault
  exact foldl_outer _
    (fun gi i => foldl_outer _ (fun gj j => faultStep_outer f gj i j) (List.range n) gi)
    (List.range n) g

/-- The whole fault loop preserves the outer reference array. -/
theorem runFaults_outer (n : ℕ) (g : RefGrid) (fs : List Fault) :
    (runFaults n g fs).outer = g.outer := by
  unfold runFaults
  exact foldl_outer _ (fun gacc f => applyFault_outer n gacc f) fs g

/-- The normalization pass preserves the outer reference array. -/
theorem normalizeGrid_outer (n : ℕ) (g : RefGrid) :
    (normalizeGrid n g).outer = g.outer := by
  unfold normalizeGrid
  exact foldl_outer _
    (fun gi i => foldl_outer _ (fun gj j => write_outer gj i j _) (List.range n) gi)
    (List.range n) g

/-- The signed distance the source computes for the concrete fault
p = (1/2, 1/2), theta = 0: it is -(1/2), the same for every vertex, where
spec 4.1 gives dot((i, j) - p, nv), which is +(1/2) at vertex (1, 0). -/
theorem val_fault_half : Fault.val ⟨1/2, 1/2, 1, 0⟩ = -(1/2) := by
  norm_num [Fault.val, toInt32]

/-- For the concrete fault p = (1/2, 1/2), theta = 0, every vertex takes the
decrement branch. -/
theorem faultStep_fault_half (g : RefGrid) (i j : ℕ) :
    faultStep ⟨1/2, 1/2, 1, 0⟩ g i j
      = g.write i j (jsSub (g.read i j) (some (1/100))) := by
  rw [faultStep, val_fault_half]
  norm_num

/-- When max and min agree, the normalization formula yields a non-finite
value whatever the cell holds (the divisor max - min is zero). -/
theorem normVal_none (v : JsNum) (q : ℚ) :
    jsDiv (jsSub v (jsDiv (jsAdd (some q) (some q)) (some 2)))
      (jsSub (some q) (some q)) = none := by
  have h : jsSub (some q) (some q) = some 0 := by simp [jsSub]
  rw [h]
  cases jsSub v (jsDiv (jsAdd (some q) (some q)) (some 2)) <;> simp [jsDiv]

/-- When the max and min the source computes agree, the normalization loop
writes a non-finite value into every visited cell. -/
theorem normalize_write_none (n : ℕ) (g : RefGrid) (q : ℚ)
    (hM : gridMaxOf g = some q) (hm : gridMinOf g = some q) :
    normalizeGrid n g =
      (List.range n).foldl
        (fun gi i => (List.range n).foldl (fun gj j => gj.write i j none) gi) g := by
  simp only [normalizeGrid, hM, hm, normVal_none]

/-- Applying the concrete fault p = (1/2, 1/2), theta = 0 once to a 2-by-2
grid: because every row aliases the one shared row and every vertex takes
the same branch, each column is decremented twice and the whole grid ends
uniformly at -(1/50). -/
theorem runFaults_fault_half :
    runFaults 2 (mkGrid 2) [⟨1/2, 1/2, 1, 0⟩]
      = ⟨[[some (-(1/50)), some (-(1/50))]], [0, 0]⟩ := by
  norm_num [runFaults, applyFault, faultStep_fault_half,
    show List.range 2 = [0, 1] from rfl,
    List.foldl_cons, List.foldl_nil, RefGrid.read, RefGrid.write, mkGrid, jsSub,
    List.replicate, List.getD_cons_zero, List.getD_cons_succ, List.getD_nil,
    List.set_cons_zero, List.set_cons_succ]

/-- The max the source computes over the uniform post-fault grid. -/
theorem gridMax_fault_half :
    gridMaxOf (⟨[[some (-(1/50)), some (-(1/50))]], [0, 0]⟩ : RefGrid)
      = some (-(1/50)) := by
  norm_num [gridMaxOf, maxRowOf, jsMaxList, jsMax2, List.map_cons, List.map_nil,
    List.getD_cons_zero, List.getD_cons_succ, List.getD_nil,
    List.foldl_cons, List.foldl_nil]

/-- The min the source computes (over maxRow) on the uniform post-fault
grid: it coincides with the max. -/
theorem gridMin_fault_half :
    gridMinOf (⟨[[some (-(1/50)), some (-(1/50))]], [0, 0]⟩ : RefGrid)
      = some (-(1/50)) := by
  norm_num [gridMinOf, maxRowOf, jsMaxList, jsMax2, jsMinList, jsMin2,
    List.map_cons, List.map_nil,
    List.getD_cons_zero, List.getD_cons_succ, List.getD_nil,
    List.foldl_cons, List.foldl_nil]

/-- The max the source computes over the untouched zero grid. -/
theorem gridMax_flat :
    gridMaxOf (mkGrid 2) = some 0 := by
  norm_num [gridMaxOf, maxRowOf, jsMaxList, jsMax2, mkGrid, List.replicate,
    List.map_cons, List.map_nil,
    List.getD_cons_zero, List.getD_cons_succ, List.getD_nil,
    List.foldl_cons, List.foldl_nil]

/-- The min the source computes over the untouched zero grid. -/
theorem gridMin_flat :
    gridMinOf (mkGrid 2) = some 0 := by
  norm_num [gridMinOf, maxRowOf, jsMaxList, jsMax2, jsMinList, jsMin2, mkGrid,
    List.replicate, List.map_cons, List.map_nil,
    List.getD_cons_zero, List.getD_cons_succ, List.getD_nil,
    List.foldl_cons, List.foldl_nil]

/-- Normalizing the flat (zero-fault) 2-by-2 grid leaves the shared row
holding two non-finite values. -/
theorem normalize_flat_eq :
    normalizeGrid 2 (runFaults 2 (mkGrid 2) []) = ⟨[[none, none]], [0, 0]⟩ := by
  have h0 : runFaults 2 (mkGrid 2) [] = mkGrid 2 := rfl
  rw [h0, normalize_write_none 2 (mkGrid 2) 0 gridMax_flat gridMin_flat]
  norm_num [show List.range 2 = [0, 1] from rfl, List.foldl_cons, List.foldl_nil,
    RefGrid.write, mkGrid, List.replicate,
    List.getD_cons_zero, List.getD_cons_succ, List.getD_nil,
    List.set_cons_zero, List.set_cons_succ]

/-- Normalizing the one-fault 2-by-2 grid also leaves the shared row holding
two non-finite values: min is taken over the row maxima of an aliased-row
grid, so max and min always coincide and the divisor is zero. -/
theorem normalize_fault_half_eq :
    normalizeGrid 2 (runFaults 2 (mkGrid 2) [⟨1/2, 1/2, 1, 0⟩])
      = ⟨[[none, none]], [0, 0]⟩ := by
  rw [runFaults_fault_half,
    normalize_write_none 2 _ (-(1/50)) gridMax_fault_half gridMin_fault_half]
  norm_num [show List.range 2 = [0, 1] from rfl, List.foldl_cons, List.foldl_nil,
    RefGrid.write, List.getD_cons_zero, List.getD_cons_succ, List.getD_nil,
    List.set_cons_zero, List.set_cons_succ]

/-! Claim theorems. -/

/-- C1: the specification claims the Normalizer guards the flat-field case,
leaving every elevation of an all-equal field at zero so that no non-finite
value flows on toward the mesh stage. The code has no max = min guard: at
gridsize 2 with zero faults (raw field all zeros) the normalization pass
divides by max - min = 0 and every stored elevation becomes non-finite
(NaN), not zero. -/
theorem c1_flat_field_normalized_to_nan :
    ((normalizeGrid 2 (runFaults 2 (mkGrid 2) [])).read 0 0 = none)
  ∧ ((normalizeGrid 2 (runFaults 2 (mkGrid 2) [])).read 0 1 = none)
  ∧ ((normalizeGrid 2 (runFaults 2 (mkGrid 2) [])).read 1 0 = none)
  ∧ ((normalizeGrid 2 (runFaults 2 (mkGrid 2) [])).read 1 1 = none)
  ∧ (none : JsNum) ≠ some 0 := by
  rw [normalize_flat_eq]
  refine ⟨rfl, rfl, rfl, rfl, ?_⟩
  intro h
  exact Option.noConfusion h

/-- C2: the specification claims each fault compares every vertex (i, j)
against the fault plane through val = dot((i, j) - p, nv) and moves the
cell by plus or minus 0.01 accordingly. The code instead builds the vertex
vector from the fault point (x, y) itself, so val is the same for every
cell: for the fault p = (1/2, 1/2), theta = 0 the spec gives
val = +(1/2) at vertex (1, 0), hence elevation +(1/100); the code computes
val = -(1/2) there and, with the aliased rows, leaves cell (1, 0) at
-(1/50). -/
theorem c2_fault_ignores_vertex :
    Fault.val ⟨1/2, 1/2, 1, 0⟩ = -(1/2)
  ∧ (runFaults 2 (mkGrid 2) [⟨1/2, 1/2, 1, 0⟩]).read 1 0 = some (-(1/50))
  ∧ some (-(1/50) : ℚ) ≠ some (1/100 : ℚ) := by
  refine ⟨val_fault_half, ?_, ?_⟩
  · rw [runFaults_fault_half]
    rfl
  · intro h
    have h2 : (-(1/50) : ℚ) = 1/100 := Option.some.inj h
    norm_num at h2

/-- C3: the specification claims the normal pass samples the four
neighbors of the elevation grid with clamp-to-self at the boundary and
stores a normalized cross product. The code never reads the elevation grid
at all: it indexes the Number gridsize (gridsize[i][j]), which throws a
TypeError at the very first vertex of any positive grid, so the pass
aborts and no normal is ever stored. -/
theorem c3_normal_pass_type_error :
    computeNormals 2 (mkGrid 2) = Except.error JsErr.typeError := rfl

/-- C4: the specification claims the mesh has exactly
(gridsize - 1) * (gridsize - 1) * 2 triangles and gridsize * gridsize
positions. At gridsize 2 the code throws ReferenceError on the first loop
iteration (the undeclared identifier g) and returns no mesh; even with that
one slip repaired the loop pushes 6 position scalars (2 triples), not the
12 scalars (4 positions) the claim requires. -/
theorem c4_create_terrain_throws :
    createTerrain 2 0 = Except.error JsErr.referenceError
  ∧ (createTerrainRepaired 2 0).positions.length = 6
  ∧ (6 : ℕ) ≠ 3 * (2 * 2) := by
  exact ⟨rfl, rfl, by norm_num⟩

/-- C5: the specification claims every triangle index is a valid positions
index, below gridsize * gridsize. The code throws before emitting any mesh,
and the index stream its loop pushes (i*3, i*3+1, i*3+2 for
i < (gridsize-1)*(gridsize-1)*2) reaches 5 at gridsize 2, which is not
below 4: even the repaired loop emits out-of-range indices. -/
theorem c5_triangle_index_exceeds_positions :
    (5 : ℤ) ∈ (createTerrainRepaired 2 0).triangles
  ∧ ¬((5 : ℤ) < 2 * 2) := by
  constructor
  · show (5 : ℤ) ∈ ([0, 1, 2, 3, 4, 5] : List ℤ)
    simp
  · norm_num

/-- C6: the specification claims that after normalization of a field with
faultCount > 0 the elevation range is exactly 1 and the midpoint exactly 0.
In the code min is taken over the row maxima of a grid whose rows all alias
one shared row, so max = min always, the divisor is zero, and after the
pass every cell, and hence the range max - min itself, is non-finite (NaN),
not 1. -/
theorem c6_normalized_range_non_finite :
    ((normalizeGrid 2 (runFaults 2 (mkGrid 2) [⟨1/2, 1/2, 1, 0⟩])).read 0 0 = none)
  ∧ ((normalizeGrid 2 (runFaults 2 (mkGrid 2) [⟨1/2, 1/2, 1, 0⟩])).read 1 1 = none)
  ∧ jsSub
      (jsMaxList (maxRowOf (normalizeGrid 2 (runFaults 2 (mkGrid 2) [⟨1/2, 1/2, 1, 0⟩]))))
      (jsMinList (minRowOf (normalizeGrid 2 (runFaults 2 (mkGrid 2) [⟨1/2, 1/2, 1, 0⟩]))))
      = none
  ∧ (none : JsNum) ≠ some 1 := by
  rw [normalize_fault_half_eq]
  refine ⟨rfl, rfl, rfl, ?_⟩
  intro h
  exact Option.noConfusion h

/-- C7: the specification claims any gridsize below 2, such as the call
generateTerrainMesh(1, 5), fails with an InvalidParameter error and
produces no mesh. The code performs no size validation at all: at
gridsize 1 the mesh loop bound (1-1)*(1-1)*2 = 0 is zero, so the builder
returns an empty mesh object with no error of any kind. -/
theorem c7_size_one_returns_empty_mesh :
    createTerrain 1 5 = Except.ok { triangles := [], positions := [], colors := [] } := rfl

/-- C8 counterexample: the specification claims every invalid request,
non-numeric or out-of-range, falls back to the defaults gridsize 2 and
faultCount 0. The out-of-range numeric input 1 (a gridsize below 2) is kept
unchanged by Number(...) || 2, not replaced by 2. -/
theorem c8_out_of_range_kept :
    numberOr (some 1) 2 = 1 ∧ (1 : ℚ) ≠ 2 := by
  constructor
  · norm_num [numberOr]
  · norm_num

/-- C8 amended: non-numeric input (Number gives NaN) and empty or zero
input do fall back to the defaults 2 and 0, but out-of-range numeric input
such as gridsize 1 passes through unchanged, and even with the defaults the
pipeline does not run to completion, because the normal pass throws a
TypeError. -/
theorem c8_fallback_partial :
    numberOr none 2 = 2
  ∧ numberOr none 0 = 0
  ∧ numberOr (some 0) 2 = 2
  ∧ numberOr (some 1) 2 = 1
  ∧ computeNormals 2 (mkGrid 2) ≠ Except.ok (mkGrid 2) := by
  refine ⟨rfl, rfl, by norm_num [numberOr], by norm_num [numberOr], ?_⟩
  intro h
  exact Except.noConfusion h

/-- C9: both the elevation grid and the normals grid are allocated as
new Array(n).fill(new Array(n).fill(0)), so every outer slot refers to the
same row object: reads agree across all row indices at allocation, stay in
agreement through the fault and normalization passes, and a write through
any row index is observed through every other row index. -/
theorem c9_rows_alias (n i iw j : ℕ) (v : JsNum) (fs : List Fault) :
    (mkGrid n).outer.getD i 0 = (mkGrid n).outer.getD iw 0
  ∧ (mkGrid n).read i j = (mkGrid n).read iw j
  ∧ (∀ g : RefGrid, g.outer = (mkGrid n).outer →
      (g.write i j v).read iw j = (g.write i j v).read i j)
  ∧ (runFaults n (mkGrid n) fs).read i j = (runFaults n (mkGrid n) fs).read iw j
  ∧ (normalizeGrid n (runFaults n (mkGrid n) fs)).read i j
      = (normalizeGrid n (runFaults n (mkGrid n) fs)).read iw j := by
  have houter : (mkGrid n).outer = List.replicate n 0 := rfl
  refine ⟨?_, ?_, ?_, ?_, ?_⟩
  · show (List.replicate n 0).getD i 0 = (List.replicate n 0).getD iw 0
    rw [getD_replicate_zero, getD_replicate_zero]
  · exact read_eq_of_outer_replicate houter i iw j
  · intro g hg
    have hw : (g.write i j v).outer = List.replicate n 0 := by
      rw [write_outer, hg, houter]
    exact read_eq_of_outer_replicate hw iw i j
  · have hf : (runFaults n (mkGrid n) fs).outer = List.replicate n 0 := by
      rw [runFaults_outer, houter]
    exact read_eq_of_outer_replicate hf i iw j
  · have hn : (normalizeGrid n (runFaults n (mkGrid n) fs)).outer = List.replicate n 0 := by
      rw [normalizeGrid_outer, runFaults_outer, houter]
    exact read_eq_of_outer_replicate hn i iw j

/-- C9 witness: the aliasing observed concretely on a 2-by-2 grid, with one
fault applied and a write through row 0 read back through row 1. -/
theorem c9_rows_alias_witness :
    (mkGrid 2).outer.getD 0 0 = (mkGrid 2).outer.getD 1 0
  ∧ ((mkGrid 2).write 0 1 (some 5)).read 1 1 = ((mkGrid 2).write 0 1 (some 5)).read 0 1
  ∧ (normalizeGrid 2 (runFaults 2 (mkGrid 2) [⟨1/2, 1/2, 1, 0⟩])).read 0 1
      = (normalizeGrid 2 (runFaults 2 (mkGrid 2) [⟨1/2, 1/2, 1, 0⟩])).read 1 1 := by
  have h := c9_rows_alias 2 0 1 1 (some 5) [⟨1/2, 1/2, 1, 0⟩]
  exact ⟨h.1, h.2.2.1 (mkGrid 2) rfl, h.2.2.2.2⟩

/-- C10: the mesh builder reads neither the fault count nor the generated
elevations or normals, so its result is a function of gridsize alone; the
repaired loop, run at gridsize 2, emits exactly the index stream
i*3, i*3+1, i*3+2, the position data i, i+1, i+gridsize and the constant
color 0.8, 0.6, 0.4 claimed. -/
theorem c10_mesh_function_of_gridsize_only :
    (∀ gridsize f1 f2 : ℤ, createTerrain gridsize f1 = createTerrain gridsize f2)
  ∧ (∀ gridsize f1 f2 : ℤ,
      createTerrainRepaired gridsize f1 = createTerrainRepaired gridsize f2)
  ∧ createTerrainRepaired 2 0 =
      { triangles := [0, 1, 2, 3, 4, 5]
        positions := [0, 1, 2, 1, 2, 3]
        colors := [4/5, 3/5, 2/5, 4/5, 3/5, 2/5] } := by
  refine ⟨fun _ _ _ => rfl, fun _ _ _ => rfl, ?_⟩
  norm_num [createTerrainRepaired, intRange,
    show List.map Int.ofNat (List.range (Int.toNat 2)) = [(0 : ℤ), 1] from rfl,
    List.foldl_cons, List.foldl_nil]

end TerrainJS
